import Mathlib

/-!
Verification of the CodeCraft generation orchestration subsystem
(`backend/server.py`).

The development shallowly embeds the core of the server:

* Python string primitives (`lower`, `title`, `strip`, `split`, `replace`,
  substring membership) are modelled as executable functions on `List Char`,
  matching CPython semantics for the ASCII inputs the server manipulates.
* `get_template_code` (the template fallback selector), the debug-output
  normalization inside `generate_code_with_ai`, `generate_code_with_ai`
  itself, and the `/generate-code` and `/explain-code` handlers are
  translated definition by definition.
* The remote OpenAI call is modelled by a `BackendOutcome` parameter (the
  call either returns a text or raises), and the two MongoDB inserts by a
  `StoreBehavior` parameter (each insert either succeeds or raises);
  performed inserts are recorded in an event trace.  Timestamps and the
  UUID generator are irrelevant to the claims and are passed in as plain
  string identifiers.
-/

set_option maxRecDepth 40000

namespace CodeCraft

/-! ### Python string primitives, on `List Char` -/

/-- Python whitespace characters stripped by `str.strip()` (ASCII range). -/
def isPyWs (c : Char) : Bool :=
  c = ' ' || c = '\t' || c = '\n' || c = '\r' || c = '\x0b' || c = '\x0c'

/-- `str.strip()`: remove leading and trailing whitespace. -/
def pyStripL (l : List Char) : List Char :=
  ((l.dropWhile isPyWs).reverse.dropWhile isPyWs).reverse

/-- Does `sep` occur at the head of the list? -/
def startsWithL : List Char → List Char → Bool
  | _, [] => true
  | [], _ :: _ => false
  | a :: as, b :: bs => a == b && startsWithL as bs

/-- Index of the first occurrence of `sep` (Python `str.find`, for
occurrences that fit; `none` when `sep` does not occur). -/
def idxOfSubL (sep : List Char) : List Char → Option Nat
  | [] => none
  | c :: cs =>
    if startsWithL (c :: cs) sep then some 0
    else (idxOfSubL sep cs).map (fun n => n + 1)

/-- Python `sep in s` substring membership (for non-empty `sep`). -/
def hasSubL (sep l : List Char) : Bool :=
  (idxOfSubL sep l).isSome

/-- The part of `l` before the first occurrence of `sep` (all of `l` when
`sep` does not occur). -/
def beforeFirstL (sep l : List Char) : List Char :=
  match idxOfSubL sep l with
  | none => l
  | some i => l.take i

/-- The part of `l` after the first occurrence of `sep` (empty when `sep`
does not occur). -/
def afterFirstL (sep l : List Char) : List Char :=
  match idxOfSubL sep l with
  | none => []
  | some i => l.drop (i + sep.length)

/-- Split off the first occurrence of `sep`: `some (pre, post)` with
`l = pre ++ sep ++ post` for the leftmost occurrence, `none` otherwise. -/
def breakOnL (sep : List Char) : List Char → Option (List Char × List Char)
  | [] => none
  | c :: cs =>
    if startsWithL (c :: cs) sep then some ([], (c :: cs).drop sep.length)
    else
      match breakOnL sep cs with
      | none => none
      | some (pre, post) => some (c :: pre, post)

/-- Fuelled worker for Python `str.split(sep)`; each recursive call strictly
shrinks the list when `sep` is non-empty, so any fuel larger than the list
length computes the full split. -/
def splitAuxL (sep : List Char) : Nat → List Char → List (List Char)
  | 0, l => [l]
  | fuel + 1, l =>
    match breakOnL sep l with
    | none => [l]
    | some (pre, post) => pre :: splitAuxL sep fuel post

/-- Python `l.split(sep)` for a non-empty separator. -/
def pySplitL (l sep : List Char) : List (List Char) :=
  splitAuxL sep (l.length + 2) l

/-- Fuelled worker for Python `str.replace(old, new)`; same fuel argument
as `splitAuxL`. -/
def replaceAuxL (old new : List Char) : Nat → List Char → List Char
  | 0, l => l
  | fuel + 1, l =>
    match breakOnL old l with
    | none => l
    | some (pre, post) => pre ++ new ++ replaceAuxL old new fuel post

/-- Python `l.replace(old, new)` for a non-empty `old`: replace every
non-overlapping occurrence, scanning left to right. -/
def pyReplaceL (l old new : List Char) : List Char :=
  replaceAuxL old new (l.length + 2) l

/-- Worker for Python `str.title()`: a cased character is uppercased when
the previous character was not cased, lowercased otherwise.  The Boolean
argument records whether the previous character was cased (alphabetic). -/
def titleAuxL : Bool → List Char → List Char
  | _, [] => []
  | prevCased, c :: cs =>
    (if c.isAlpha then (if prevCased then c.toLower else c.toUpper) else c)
      :: titleAuxL c.isAlpha cs

/-! ### String-level wrappers -/

/-- Python `s.lower()` (ASCII). -/
def pyLower (s : String) : String :=
  String.mk (s.data.map Char.toLower)

/-- Python `s.title()` (ASCII). -/
def pyTitle (s : String) : String :=
  String.mk (titleAuxL false s.data)

/-- Python `s.strip()`. -/
def pyStrip (s : String) : String :=
  String.mk (pyStripL s.data)

/-- Python `sub in s`. -/
def hasSub (s sub : String) : Bool :=
  hasSubL sub.data s.data

/-! ### The template catalog of `get_template_code` (lines 126-243) -/

/-- The `javascript.react_component` entry of the template catalog. -/
def jsReactComponentTemplate : String :=
  "import React, \x7b useState, useEffect \x7d from \x27react\x27;\n\nconst MyComponent = () => \x7b\n  const [data, setData] = useState(null);\n  const [loading, setLoading] = useState(true);\n\n  useEffect(() => \x7b\n    // Fetch data or initialize component\n    setLoading(false);\n  \x7d, []);\n\n  if (loading) return <div>Loading...</div>;\n\n  return (\n    <div className=\"my-component\">\n      <h1>My Component</h1>\n      \x7b/* Add your content here */\x7d\n    </div>\n  );\n\x7d;\n\nexport default MyComponent;"

/-- The `javascript.api_endpoint` entry of the template catalog. -/
def jsApiEndpointTemplate : String :=
  "const express = require(\x27express\x27);\nconst router = express.Router();\n\n// GET endpoint\nrouter.get(\x27/api/data\x27, async (req, res) => \x7b\n  try \x7b\n    // Your logic here\n    res.json(\x7b success: true, data: [] \x7d);\n  \x7d catch (error) \x7b\n    res.status(500).json(\x7b error: error.message \x7d);\n  \x7d\n\x7d);\n\n// POST endpoint\nrouter.post(\x27/api/data\x27, async (req, res) => \x7b\n  try \x7b\n    const \x7b body \x7d = req;\n    // Process data\n    res.json(\x7b success: true, message: \x27Data created\x27 \x7d);\n  \x7d catch (error) \x7b\n    res.status(500).json(\x7b error: error.message \x7d);\n  \x7d\n\x7d);\n\nmodule.exports = router;"

/-- The `javascript.function` entry of the template catalog. -/
def jsFunctionTemplate : String :=
  "function myFunction(param1, param2) \x7b\n  // Add your logic here\n  try \x7b\n    const result = param1 + param2;\n    return result;\n  \x7d catch (error) \x7b\n    console.error(\x27Error:\x27, error);\n    return null;\n  \x7d\n\x7d"

/-- The `python.function` entry of the template catalog. -/
def pyFunctionTemplate : String :=
  "def my_function(param1, param2):\n    \"\"\"\n    Description of the function\n    \n    Args:\n        param1: Description of param1\n        param2: Description of param2\n    \n    Returns:\n        Description of return value\n    \"\"\"\n    try:\n        result = param1 + param2\n        return result\n    except Exception as e:\n        print(f\"Error: \x7be\x7d\")\n        return None"

/-- The `python.class` entry of the template catalog. -/
def pyClassTemplate : String :=
  "class MyClass:\n    def __init__(self, name):\n        self.name = name\n        self.data = []\n    \n    def add_data(self, item):\n        \"\"\"Add an item to the data list\"\"\"\n        self.data.append(item)\n        return len(self.data)\n    \n    def get_data(self):\n        \"\"\"Get all data\"\"\"\n        return self.data\n    \n    def __str__(self):\n        return f\"MyClass(name=\x7bself.name\x7d, items=\x7blen(self.data)\x7d)\""

/-- The `python.api` entry of the template catalog. -/
def pyApiTemplate : String :=
  "from fastapi import FastAPI, HTTPException\nfrom pydantic import BaseModel\nfrom typing import List, Optional\n\napp = FastAPI()\n\nclass Item(BaseModel):\n    id: Optional[int] = None\n    name: str\n    description: Optional[str] = None\n\n@app.get(\"/api/items\")\nasync def get_items():\n    return \x7b\"items\": []\x7d\n\n@app.post(\"/api/items\")\nasync def create_item(item: Item):\n    return \x7b\"message\": \"Item created\", \"item\": item\x7d\n\n@app.get(\"/api/items/\x7bitem_id\x7d\")\nasync def get_item(item_id: int):\n    return \x7b\"item_id\": item_id\x7d"

/-- Lookup in the nested `templates` dictionary: `templates[language][key]`
when both keys are present. -/
def templatesLookup (language key : String) : Option String :=
  if language == "javascript" then
    if key == "react_component" then some jsReactComponentTemplate
    else if key == "api_endpoint" then some jsApiEndpointTemplate
    else if key == "function" then some jsFunctionTemplate
    else none
  else if language == "python" then
    if key == "function" then some pyFunctionTemplate
    else if key == "class" then some pyClassTemplate
    else if key == "api" then some pyApiTemplate
    else none
  else none

/-- Python `language in templates`. -/
def hasTemplates (language : String) : Bool :=
  language == "javascript" || language == "python"

/-! ### The structured result and the Template Fallback Selector -/

/-- The `{"code": ..., "explanation": ...}` dictionary returned by
`generate_code_with_ai` and `get_template_code`. -/
structure GenResult where
  code : String
  explanation : String
deriving DecidableEq

/-- The generic-placeholder result of `get_template_code` (lines 262-263),
reached when no keyword branch fires or when the language has no catalog
entry. -/
def mkGenericResult (prompt language : String) : GenResult :=
  { code := "// " ++ pyTitle language ++ " code for: " ++ prompt ++
      "\n// Template-based generation - please provide OpenAI API key for advanced features"
  , explanation := "Basic template generated. For advanced AI-powered code generation, please configure OpenAI API key." }

/-- `get_template_code` (lines 124-263): the Template Fallback Selector.
The `rtype` parameter is accepted (it is in the Python signature) but never
consulted by the body. -/
def getTemplateCode (prompt language rtype : String) : GenResult :=
  let promptLower := pyLower prompt
  if hasTemplates language then
    if hasSub promptLower "react" || hasSub promptLower "component" then
      { code := (templatesLookup language "react_component").getD "// Template not available"
      , explanation := "Generated React component template" }
    else if hasSub promptLower "api" || hasSub promptLower "endpoint" || hasSub promptLower "server" then
      { code := (templatesLookup language "api").getD
          ((templatesLookup language "api_endpoint").getD "// Template not available")
      , explanation := "Generated API template" }
    else if hasSub promptLower "function" then
      { code := (templatesLookup language "function").getD "// Template not available"
      , explanation := "Generated function template" }
    else if hasSub promptLower "class" && language == "python" then
      { code := (templatesLookup language "class").getD "# Template not available"
      , explanation := "Generated class template" }
    else mkGenericResult prompt language
  else mkGenericResult prompt language

/-! ### Response normalization and the Backend Invoker
(`generate_code_with_ai`, lines 69-122) -/

/-- `"FIXED CODE:"` as a character list. -/
def fixedMarker : List Char := "FIXED CODE:".data

/-- `"ISSUE:"` as a character list. -/
def issueMarker : List Char := "ISSUE:".data

/-- Lines 112-118 of `generate_code_with_ai`: normalization of the raw
backend text.  For a debug request whose text contains `FIXED CODE:`, the
text is split on every occurrence of the marker; the explanation is
`parts[0]` with every `ISSUE:` removed and stripped, the code is
`parts[1]` stripped.  (When the marker occurs, the split has at least two
parts, so the `getD` defaults are never used.)  Otherwise the whole text is
the code with the fixed confirmation explanation. -/
def normalizeResponse (rtype text : String) : GenResult :=
  if rtype == "debug" && hasSubL fixedMarker text.data then
    let parts := pySplitL text.data fixedMarker
    { code := String.mk (pyStripL (parts.getD 1 []))
    , explanation := String.mk (pyStripL (pyReplaceL (parts.getD 0 []) issueMarker [])) }
  else
    { code := text, explanation := "Code generated successfully" }

/-- Outcome of the one remote OpenAI call: either it yields a response
text, or it raises (network error, timeout, authentication failure,
`None` message content — anything the `except` clause would catch). -/
inductive BackendOutcome
  | ok (text : String)
  | exn
deriving DecidableEq

/-- The four request types for which `generate_code_with_ai` binds a
`system_prompt` (lines 77-93).  For any other value the later use of
`system_prompt` raises `NameError`, which the except clause catches. -/
def validRequestType (rtype : String) : Bool :=
  rtype == "generate" || rtype == "debug" || rtype == "explain" || rtype == "optimize"

/-- `generate_code_with_ai` (lines 69-122).  `hasClient` says whether an
OpenAI API key was configured (line 27); `outcome` stands for the remote
call; `codeInput` only feeds the user message sent to the backend and so
does not influence the result beyond `outcome`.  Every failure path falls
back to `get_template_code`; the function is total. -/
def generateCodeWithAI (hasClient : Bool) (outcome : BackendOutcome)
    (prompt language rtype : String) (codeInput : Option String) : GenResult :=
  if hasClient then
    if validRequestType rtype then
      match outcome with
      | .ok text => normalizeResponse rtype text
      | .exn => getTemplateCode prompt language rtype
    else getTemplateCode prompt language rtype
  else getTemplateCode prompt language rtype

/-! ### The Request Orchestrator (`generate_code`, lines 270-302, and
`explain_code`, lines 355-374) -/

/-- The persisted `CodeRequest` document (datetime field omitted: it is
set once from the clock and never consulted by the core). -/
structure CodeRequestRec where
  id : String
  prompt : String
  language : String
  request_type : String
  code_input : Option String
deriving DecidableEq

/-- The persisted `CodeResponse` document (datetime field omitted). -/
structure CodeResponseRec where
  id : String
  request_id : String
  generated_code : String
  explanation : String
  language : String
deriving DecidableEq

/-- The request body of `POST /generate-code` after pydantic validation
(`CodeRequestCreate`, lines 52-56), with defaults already applied. -/
structure CodeRequestCreate where
  prompt : String
  language : String
  request_type : String
  code_input : Option String
deriving DecidableEq

/-- A write performed against the document store, in program order. -/
inductive WriteEvent
  | reqWrite (r : CodeRequestRec)
  | respWrite (r : CodeResponseRec)
deriving DecidableEq

/-- Whether each of the two `insert_one` calls succeeds or raises. -/
structure StoreBehavior where
  reqInsertOk : Bool
  respInsertOk : Bool
deriving DecidableEq

/-- Line 275: `CodeRequest(**request.dict())` with a fresh UUID. -/
def mkCodeRequest (reqId : String) (req : CodeRequestCreate) : CodeRequestRec :=
  { id := reqId, prompt := req.prompt, language := req.language
  , request_type := req.request_type, code_input := req.code_input }

/-- `generate_code` (lines 270-302).  `reqId`/`respId` are the two fresh
UUIDs.  Returns the handler's result (`Except.error` models the
`HTTPException(500)` raised by the `except` clause) together with the trace
of store writes that completed, in order.  A failed insert raises before
persisting anything, so it leaves no event. -/
def generateCode (store : StoreBehavior) (reqId respId : String)
    (hasClient : Bool) (outcome : BackendOutcome) (req : CodeRequestCreate) :
    Except String CodeResponseRec × List WriteEvent :=
  let codeRequest := mkCodeRequest reqId req
  if store.reqInsertOk then
    let result := generateCodeWithAI hasClient outcome req.prompt req.language
        req.request_type req.code_input
    let response : CodeResponseRec :=
      { id := respId, request_id := codeRequest.id
      , generated_code := result.code, explanation := result.explanation
      , language := req.language }
    if store.respInsertOk then
      (Except.ok response, [WriteEvent.reqWrite codeRequest, WriteEvent.respWrite response])
    else
      (Except.error "Code generation failed", [WriteEvent.reqWrite codeRequest])
  else
    (Except.error "Code generation failed", [])

/-- The raw JSON body of `POST /generate-code`, before pydantic
validation: each field may be absent. -/
structure RawGenerateBody where
  prompt : Option String
  language : Option String
  request_type : Option String
  code_input : Option String
deriving DecidableEq

/-- Pydantic validation of `CodeRequestCreate` (lines 52-56): `prompt` has
no default and is required; `language` defaults to `"javascript"`,
`request_type` to `"generate"`, `code_input` to `None`.  `none` models the
422 validation error FastAPI returns before the handler runs. -/
def parseCodeRequestCreate (b : RawGenerateBody) : Option CodeRequestCreate :=
  match b.prompt with
  | none => none
  | some p =>
    some { prompt := p, language := b.language.getD "javascript"
         , request_type := b.request_type.getD "generate", code_input := b.code_input }

/-- What the caller of `POST /generate-code` observes. -/
inductive ApiResult
  | validationError
  | serverError (msg : String)
  | ok (resp : CodeResponseRec)
deriving DecidableEq

/-- The full `POST /generate-code` operation: FastAPI validates the body
against `CodeRequestCreate` and only then runs the handler. -/
def handleGenerate (store : StoreBehavior) (reqId respId : String)
    (hasClient : Bool) (outcome : BackendOutcome) (b : RawGenerateBody) :
    ApiResult × List WriteEvent :=
  match parseCodeRequestCreate b with
  | none => (ApiResult.validationError, [])
  | some req =>
    match generateCode store reqId respId hasClient outcome req with
    | (Except.ok resp, ev) => (ApiResult.ok resp, ev)
    | (Except.error msg, ev) => (ApiResult.serverError msg, ev)

/-- The response body of `POST /explain-code` (lines 366-370). -/
structure ExplainResult where
  code : String
  explanation : String
  language : String
deriving DecidableEq

/-- `explain_code` (lines 355-374): a fixed instructional prompt, mode
`"explain"`, the submitted code as `code_input`; the handler returns the
submitted code together with the explanation of the generation result
(whose `code` field it discards). -/
def explainCode (hasClient : Bool) (outcome : BackendOutcome)
    (code language : String) : ExplainResult :=
  let result := generateCodeWithAI hasClient outcome "Explain this code in detail"
      language "explain" (some code)
  { code := code, explanation := result.explanation, language := language }

/-! ### Helper lemmas -/

/-- The characters of a concatenation. -/
theorem strDataAppend (a b : String) : (a ++ b).data = a.data ++ b.data := by
  cases a
  cases b
  rfl

/-- The generic-placeholder code always begins with a slash. -/
theorem mkGenericResult_code_head (prompt language : String) :
    (mkGenericResult prompt language).code.data.head? = some '/' := by
  have h3 : ("// " : String).data = ['/', '/', ' '] := rfl
  simp [mkGenericResult, strDataAppend, h3]

/-- `breakOnL` finds exactly the first occurrence located by `idxOfSubL`. -/
theorem breakOnL_eq (sep : List Char) (l : List Char) :
    breakOnL sep l
      = (idxOfSubL sep l).map (fun i => (l.take i, l.drop (i + sep.length))) := by
  induction l with
  | nil => rfl
  | cons c cs ih =>
    by_cases h : startsWithL (c :: cs) sep = true
    · simp [breakOnL, idxOfSubL, h]
    · simp only [breakOnL, idxOfSubL, h, if_false, Bool.false_eq_true, ite_false, ih]
      cases hidx : idxOfSubL sep cs with
      | none => simp
      | some n =>
        simp [List.take_succ_cons, List.drop_succ_cons,
          show n + 1 + sep.length = (n + sep.length) + 1 from by omega]

/-- The first component of the fuelled split is the text before the first
occurrence of the separator. -/
theorem splitAuxL_getD_zero (sep : List Char) (fuel : Nat) (hf : 0 < fuel)
    (l : List Char) : (splitAuxL sep fuel l).getD 0 [] = beforeFirstL sep l := by
  cases fuel with
  | zero => omega
  | succ f =>
    have hb := breakOnL_eq sep l
    cases hidx : idxOfSubL sep l with
    | none =>
      rw [hidx] at hb
      simp only [Option.map_none'] at hb
      simp [splitAuxL, hb, beforeFirstL, hidx]
    | some i =>
      rw [hidx] at hb
      simp only [Option.map_some'] at hb
      simp [splitAuxL, hb, beforeFirstL, hidx]

/-- When the separator occurs, the second component of the fuelled split is
the text strictly between the first and second occurrences (or the whole
remainder when it occurs only once). -/
theorem splitAuxL_getD_one (sep : List Char) (fuel : Nat) (hf : 1 < fuel)
    (l : List Char) (i : Nat) (hidx : idxOfSubL sep l = some i) :
    (splitAuxL sep fuel l).getD 1 [] = beforeFirstL sep (afterFirstL sep l) := by
  cases fuel with
  | zero => omega
  | succ f =>
    have hb := breakOnL_eq sep l
    rw [hidx] at hb
    simp only [Option.map_some'] at hb
    simp only [splitAuxL, hb, List.getD_cons_succ]
    rw [splitAuxL_getD_zero sep f (by omega)]
    simp [afterFirstL, hidx]

/-- `pySplitL` always has enough fuel: component 0. -/
theorem pySplitL_getD_zero (l sep : List Char) :
    (pySplitL l sep).getD 0 [] = beforeFirstL sep l :=
  splitAuxL_getD_zero sep (l.length + 2) (by omega) l

/-- `pySplitL` always has enough fuel: component 1, when the separator
occurs. -/
theorem pySplitL_getD_one (l sep : List Char) (i : Nat)
    (hidx : idxOfSubL sep l = some i) :
    (pySplitL l sep).getD 1 [] = beforeFirstL sep (afterFirstL sep l) :=
  splitAuxL_getD_one sep (l.length + 2) (by omega) l i hidx

/-! ### Claim C1 — debug-mode normalization -/

/-- Strip one leading occurrence of the marker `m`, as the specification's
words (`a leading ISSUE: marker stripped`) prescribe. -/
def dropLeadingL (m l : List Char) : List Char :=
  if startsWithL l m then l.drop m.length else l

/-- The debug-mode normalizer exactly as claim C1 words it (spec side, for
comparison with the code's `normalizeResponse`): the explanation is the
text before the first `FIXED CODE:` with a leading `ISSUE:` stripped and
trimmed; the code is the ENTIRE text after that first occurrence, trimmed. -/
def claimedDebugNormalize (text : String) : GenResult :=
  if hasSubL fixedMarker text.data then
    { code := String.mk (pyStripL (afterFirstL fixedMarker text.data))
    , explanation := String.mk (pyStripL (dropLeadingL issueMarker
        (beforeFirstL fixedMarker text.data))) }
  else { code := text, explanation := "Code generated successfully" }

/-- Claim C1, counterexample: on a backend text with two `FIXED CODE:`
markers and a non-leading `ISSUE:`, the code keeps only the segment
between the two markers (Python `split` discards the rest) and deletes the
inner `ISSUE:` (Python `replace` removes every occurrence), so the
normalizer does not satisfy the claimed contract. -/
theorem debug_normalization_contract_cex :
    normalizeResponse "debug" "x ISSUE: a FIXED CODE: b FIXED CODE: c"
      ≠ claimedDebugNormalize "x ISSUE: a FIXED CODE: b FIXED CODE: c" := by
  decide

/-- Claim C1 (amended): in debug mode, when the text contains
`FIXED CODE:` the explanation is the text before the first occurrence with
every `ISSUE:` removed and trimmed, and the code is the text strictly
between the first and second occurrences (the whole remainder when the
marker occurs once), trimmed; when the marker is absent the entire text
becomes the code with the generic explanation.  The normalizer is a total
function, so no input text raises. -/
theorem debug_normalization_amended (text : String) :
    (hasSub text "FIXED CODE:" = true →
      normalizeResponse "debug" text =
        { code := String.mk (pyStripL (beforeFirstL fixedMarker
            (afterFirstL fixedMarker text.data)))
        , explanation := String.mk (pyStripL (pyReplaceL
            (beforeFirstL fixedMarker text.data) issueMarker [])) })
    ∧ (hasSub text "FIXED CODE:" = false →
      normalizeResponse "debug" text
        = { code := text, explanation := "Code generated successfully" }) := by
  constructor
  · intro h
    have h' : hasSubL fixedMarker text.data = true := h
    obtain ⟨i, hi⟩ := Option.isSome_iff_exists.mp h'
    simp only [normalizeResponse, h', beq_self_eq_true, Bool.and_self, if_true]
    rw [pySplitL_getD_one text.data fixedMarker i hi, pySplitL_getD_zero]
  · intro h
    have h' : hasSubL fixedMarker text.data = false := h
    simp [normalizeResponse, h']

/-- Witness for C1 (amended) at the round-trip input of the spec. -/
theorem debug_normalization_amended_witness :
    hasSub "ISSUE: foo FIXED CODE: bar" "FIXED CODE:" = true ∧
    normalizeResponse "debug" "ISSUE: foo FIXED CODE: bar" =
      { code := String.mk (pyStripL (beforeFirstL fixedMarker
          (afterFirstL fixedMarker "ISSUE: foo FIXED CODE: bar".data)))
      , explanation := String.mk (pyStripL (pyReplaceL
          (beforeFirstL fixedMarker "ISSUE: foo FIXED CODE: bar".data) issueMarker [])) } :=
  ⟨by decide, (debug_normalization_amended "ISSUE: foo FIXED CODE: bar").1 (by decide)⟩

/-- Sanity example (spec §8 round trip): the normalizer on
`"ISSUE: foo FIXED CODE: bar"` yields explanation `"foo"`, code `"bar"`. -/
theorem debug_round_trip_example :
    normalizeResponse "debug" "ISSUE: foo FIXED CODE: bar"
      = { code := "bar", explanation := "foo" } := by
  decide

/-! ### Claim C3 — totality and non-emptiness of the selector -/

/-- Claim C3: the Template Fallback Selector is pure and total (it is a
Lean function into `GenResult`), and for every `(prompt, language,
request_type)` triple — all request types, any language, with or without a
catalog entry — both the code and the explanation it returns are
non-empty. -/
theorem template_fallback_total (p l rt : String) :
    (getTemplateCode p l rt).code ≠ "" ∧ (getTemplateCode p l rt).explanation ≠ "" := by
  have hgen : ∀ (p' l' : String),
      (mkGenericResult p' l').code ≠ "" ∧ (mkGenericResult p' l').explanation ≠ "" := by
    intro p' l'
    constructor
    · intro h
      have hh := mkGenericResult_code_head p' l'
      rw [h] at hh
      simp at hh
    · show ¬(("Basic template generated. For advanced AI-powered code generation, please configure OpenAI API key." : String) = "")
      decide
  by_cases hjs : l = "javascript"
  · subst hjs
    simp only [getTemplateCode, hasTemplates, beq_self_eq_true, Bool.true_or, if_true]
    split_ifs <;> first
      | exact ⟨by decide, by decide⟩
      | exact hgen p "javascript"
  · by_cases hpy : l = "python"
    · subst hpy
      simp only [getTemplateCode, hasTemplates, beq_self_eq_true, Bool.or_true, if_true]
      split_ifs <;> first
        | exact ⟨by decide, by decide⟩
        | exact hgen p "python"
    · have hT : hasTemplates l = false := by
        simp [hasTemplates, Bool.or_eq_false_iff, beq_eq_false_iff_ne]
        exact ⟨hjs, hpy⟩
      simp only [getTemplateCode, hT, Bool.false_eq_true, if_false]
      exact hgen p l

/-- Witness for C3 at a language with no catalog entry. -/
theorem template_fallback_total_witness :
    (getTemplateCode "anything at all" "ruby" "debug").code ≠ ""
    ∧ (getTemplateCode "anything at all" "ruby" "debug").explanation ≠ "" :=
  template_fallback_total "anything at all" "ruby" "debug"

/-! ### Claim C4 — keyword priority: react before function -/

/-- Claim C4: for every language with a template catalog, a prompt whose
lower-casing contains both `"react"` and `"function"` resolves through the
React branch (the first keyword rule), never the function branch: the
result is the React-branch value and its explanation is not the function
branch's explanation. -/
theorem keyword_priority_react_over_function (p l rt : String)
    (hl : hasTemplates l = true)
    (hre : hasSub (pyLower p) "react" = true)
    (hfn : hasSub (pyLower p) "function" = true) :
    getTemplateCode p l rt =
      { code := (templatesLookup l "react_component").getD "// Template not available"
      , explanation := "Generated React component template" }
    ∧ (getTemplateCode p l rt).explanation ≠ "Generated function template" := by
  have h1 : getTemplateCode p l rt =
      { code := (templatesLookup l "react_component").getD "// Template not available"
      , explanation := "Generated React component template" } := by
    simp [getTemplateCode, hl, hre]
  refine ⟨h1, ?_⟩
  rw [h1]
  show ¬(("Generated React component template" : String) = "Generated function template")
  decide

/-- Witness for C4: a prompt containing both keywords, in JavaScript. -/
theorem keyword_priority_react_over_function_witness :
    getTemplateCode "a react function" "javascript" "generate" =
      { code := (templatesLookup "javascript" "react_component").getD "// Template not available"
      , explanation := "Generated React component template" }
    ∧ (getTemplateCode "a react function" "javascript" "generate").explanation
        ≠ "Generated function template" :=
  keyword_priority_react_over_function "a react function" "javascript" "generate"
    (by decide) (by decide) (by decide)

/-! ### Claim C5 — no credential: the invoker returns the fallback -/

/-- Claim C5: with no backend credential configured, the Backend Invoker
returns exactly the Template Fallback Selector's result for the same
triple, whatever the backend would have done; in particular the prompt
`"write a function to add two numbers"` in `"python"` yields the fixed
Python function template (a non-error result). -/
theorem no_credential_uses_template_fallback :
    (∀ (outcome : BackendOutcome) (p l rt : String) (ci : Option String),
        generateCodeWithAI false outcome p l rt ci = getTemplateCode p l rt)
    ∧ (∀ (outcome : BackendOutcome) (rt : String) (ci : Option String),
        generateCodeWithAI false outcome "write a function to add two numbers" "python" rt ci
          = { code := pyFunctionTemplate, explanation := "Generated function template" }) := by
  refine ⟨fun o p l rt ci => rfl, fun o rt ci => ?_⟩
  show getTemplateCode "write a function to add two numbers" "python" rt = _
  rw [show getTemplateCode "write a function to add two numbers" "python" rt
      = getTemplateCode "write a function to add two numbers" "python" "generate" from rfl]
  decide

/-! ### Claim C7 — react templates and uncatalogued languages -/

/-- Claim C7: under a react/component prompt the selector's code is the
React-component template exactly for `"javascript"` (the only member of
the JavaScript/TypeScript family with a catalog entry), and every language
with no catalog entry always takes the generic-placeholder branch, whose
code embeds the title-cased language name and the original prompt. -/
theorem react_template_only_js_family (p l rt : String) :
    ((hasSub (pyLower p) "react" || hasSub (pyLower p) "component") = true →
      ((getTemplateCode p l rt).code = jsReactComponentTemplate ↔ l = "javascript"))
    ∧ (hasTemplates l = false → getTemplateCode p l rt = mkGenericResult p l) := by
  have hgen : ∀ (p' l' : String), (mkGenericResult p' l').code ≠ jsReactComponentTemplate := by
    intro p' l' h
    have hh := mkGenericResult_code_head p' l'
    rw [h] at hh
    exact absurd hh (by decide)
  constructor
  · intro hkw
    have hchar : ∀ l' : String, hasTemplates l' = true →
        getTemplateCode p l' rt =
          { code := (templatesLookup l' "react_component").getD "// Template not available"
          , explanation := "Generated React component template" } := by
      intro l' hl'
      simp [getTemplateCode, hl', hkw]
    constructor
    · intro hcode
      by_cases hjs : l = "javascript"
      · exact hjs
      · exfalso
        by_cases hpy : l = "python"
        · subst hpy
          rw [hchar "python" (by decide)] at hcode
          exact absurd hcode (by decide)
        · have hT : hasTemplates l = false := by
            simp [hasTemplates, Bool.or_eq_false_iff, beq_eq_false_iff_ne]
            exact ⟨hjs, hpy⟩
          rw [show getTemplateCode p l rt = mkGenericResult p l from by
            simp [getTemplateCode, hT]] at hcode
          exact hgen p l hcode
    · intro hjs
      subst hjs
      rw [hchar "javascript" (by decide)]
      decide
  · intro hT
    simp [getTemplateCode, hT]

/-- Witness for C7: an uncatalogued language with a react prompt falls to
the generic placeholder. -/
theorem react_template_only_js_family_witness :
    hasTemplates "ruby" = false ∧
    getTemplateCode "build a react component" "ruby" "generate"
      = mkGenericResult "build a react component" "ruby" :=
  ⟨by decide,
   (react_template_only_js_family "build a react component" "ruby" "generate").2 (by decide)⟩

/-! ### Claim C9 — the selector ignores the request type -/

/-- Claim C9: the Template Fallback Selector's output is independent of
`request_type` — the parameter is never consulted — so a debug-mode
request served by the fallback receives the same keyword-chosen template
as any other mode, with no issue/fixed-code structure. -/
theorem template_independent_of_request_type (p l rt₁ rt₂ : String) :
    getTemplateCode p l rt₁ = getTemplateCode p l rt₂ := rfl

/-! ### Claim C2 — server errors come only from persistence -/

/-- Claim C2: `POST /generate-code` surfaces a server error only when one
of the two persistence writes fails, and any backend exception (the
`BackendOutcome.exn` case: missing content, timeout, authentication
failure, malformed payload — everything the except clause catches) is
absorbed and replaced by the Template Fallback Selector's result, never
propagating to the caller. -/
theorem server_error_only_on_persistence_failure :
    (∀ (store : StoreBehavior) (reqId respId : String) (hasClient : Bool)
        (outcome : BackendOutcome) (b : RawGenerateBody) (msg : String),
        (handleGenerate store reqId respId hasClient outcome b).1 = ApiResult.serverError msg →
          store.reqInsertOk = false ∨ store.respInsertOk = false)
    ∧ (∀ (hasClient : Bool) (p l rt : String) (ci : Option String),
        generateCodeWithAI hasClient BackendOutcome.exn p l rt ci = getTemplateCode p l rt) := by
  constructor
  · intro store reqId respId hasClient outcome b msg h
    by_cases hrq : store.reqInsertOk = true
    · by_cases hrs : store.respInsertOk = true
      · exfalso
        cases hp : parseCodeRequestCreate b <;>
          simp [handleGenerate, generateCode, hp, hrq, hrs] at h
      · right
        simpa using hrs
    · left
      simpa using hrq
  · intro hasClient p l rt ci
    cases hasClient
    · rfl
    · show (if validRequestType rt = true then getTemplateCode p l rt
        else getTemplateCode p l rt) = getTemplateCode p l rt
      exact ite_self _

/-- Witness for C2: a failing request insert is the one way to get a
server error. -/
theorem server_error_only_on_persistence_failure_witness :
    (handleGenerate ⟨false, true⟩ "rid" "sid" false BackendOutcome.exn
        ⟨some "hi", some "python", none, none⟩).1 = ApiResult.serverError "Code generation failed"
    ∧ ((⟨false, true⟩ : StoreBehavior).reqInsertOk = false
        ∨ (⟨false, true⟩ : StoreBehavior).respInsertOk = false) :=
  ⟨rfl, server_error_only_on_persistence_failure.1 ⟨false, true⟩ "rid" "sid" false
    BackendOutcome.exn ⟨some "hi", some "python", none, none⟩ "Code generation failed" rfl⟩

/-! ### Claim C6 — persistence shape and order -/

/-- Every response write in a trace is preceded by the write of the
request it references. -/
def respAfterReq (events : List WriteEvent) : Prop :=
  ∀ (j : Nat) (s : CodeResponseRec), events.get? j = some (WriteEvent.respWrite s) →
    ∃ (i : Nat) (q : CodeRequestRec), i < j
      ∧ events.get? i = some (WriteEvent.reqWrite q) ∧ q.id = s.request_id

/-- Claim C6: a successful generate operation persists exactly one
CodeRequest followed by exactly one CodeResponse whose `request_id` is the
request's `id`; and on every path (success or failure) a persisted
CodeResponse is preceded by its CodeRequest — no response is ever written
without its request. -/
theorem persist_request_then_response (store : StoreBehavior) (reqId respId : String)
    (hasClient : Bool) (outcome : BackendOutcome) (req : CodeRequestCreate) :
    (∀ resp : CodeResponseRec,
        (generateCode store reqId respId hasClient outcome req).1 = Except.ok resp →
          (generateCode store reqId respId hasClient outcome req).2
            = [WriteEvent.reqWrite (mkCodeRequest reqId req), WriteEvent.respWrite resp]
          ∧ resp.request_id = (mkCodeRequest reqId req).id)
    ∧ respAfterReq (generateCode store reqId respId hasClient outcome req).2 := by
  obtain ⟨rq, rs⟩ := store
  cases rq <;> cases rs
  · exact ⟨fun resp h => by simp [generateCode] at h,
      fun j s hj => by simp [generateCode] at hj⟩
  · exact ⟨fun resp h => by simp [generateCode] at h,
      fun j s hj => by simp [generateCode] at hj⟩
  · refine ⟨fun resp h => by simp [generateCode] at h, fun j s hj => ?_⟩
    cases j with
    | zero => simp [generateCode] at hj
    | succ j' => simp [generateCode] at hj
  · constructor
    · intro resp h
      injection h with h'
      subst h'
      exact ⟨rfl, rfl⟩
    · intro j s hj
      cases j with
      | zero => simp [generateCode] at hj
      | succ j' =>
        cases j' with
        | zero =>
          refine ⟨0, mkCodeRequest reqId req, by omega, rfl, ?_⟩
          simp [generateCode] at hj
          subst hj
          rfl
        | succ j'' => simp [generateCode] at hj

/-- Witness for C6: a concrete successful run writes the request record
then the response record, with matching identifiers. -/
theorem persist_request_then_response_witness :
    (generateCode ⟨true, true⟩ "rid" "sid" false BackendOutcome.exn
        ⟨"hi", "ruby", "generate", none⟩).2
      = [WriteEvent.reqWrite (mkCodeRequest "rid" ⟨"hi", "ruby", "generate", none⟩),
         WriteEvent.respWrite ⟨"sid", "rid",
           "// Ruby code for: hi\n// Template-based generation - please provide OpenAI API key for advanced features",
           "Basic template generated. For advanced AI-powered code generation, please configure OpenAI API key.",
           "ruby"⟩]
    ∧ (⟨"sid", "rid",
           "// Ruby code for: hi\n// Template-based generation - please provide OpenAI API key for advanced features",
           "Basic template generated. For advanced AI-powered code generation, please configure OpenAI API key.",
           "ruby"⟩ : CodeResponseRec).request_id
        = (mkCodeRequest "rid" ⟨"hi", "ruby", "generate", none⟩).id :=
  (persist_request_then_response ⟨true, true⟩ "rid" "sid" false BackendOutcome.exn
      ⟨"hi", "ruby", "generate", none⟩).1 _ rfl

/-! ### Claim C8 — request validation -/

/-- Claim C8, counterexample: a body with `prompt` present and `language`
absent is NOT rejected with a validation error — the operation proceeds
(language silently defaults), so `language` presence is not validated as
the claim states. -/
theorem generate_validation_cex :
    handleGenerate ⟨true, true⟩ "rid" "sid" false BackendOutcome.exn
        ⟨some "hi", none, none, none⟩
      ≠ (ApiResult.validationError, []) := by
  decide

/-- Claim C8 (amended): the generate operation validates that `prompt` is
present; a missing `prompt` is surfaced as a client-facing validation
error before any store write (empty trace) and independently of the
backend; a body with `prompt` present but `language` absent parses
successfully with `language` defaulting to `"javascript"`. -/
theorem generate_validation_amended (store : StoreBehavior) (reqId respId : String)
    (hasClient : Bool) (outcome : BackendOutcome) (b : RawGenerateBody) :
    (b.prompt = none →
        handleGenerate store reqId respId hasClient outcome b = (ApiResult.validationError, [])
        ∧ ∀ outcome' : BackendOutcome,
            handleGenerate store reqId respId hasClient outcome b
              = handleGenerate store reqId respId hasClient outcome' b)
    ∧ (∀ p : String, b.prompt = some p → b.language = none →
        parseCodeRequestCreate b
          = some { prompt := p, language := "javascript"
                 , request_type := b.request_type.getD "generate"
                 , code_input := b.code_input }) := by
  constructor
  · intro hp
    have h1 : ∀ o : BackendOutcome,
        handleGenerate store reqId respId hasClient o b = (ApiResult.validationError, []) := by
      intro o
      simp [handleGenerate, parseCodeRequestCreate, hp]
    exact ⟨h1 outcome, fun o' => (h1 outcome).trans (h1 o').symm⟩
  · intro p hp hl
    simp [parseCodeRequestCreate, hp, hl]

/-- Witness for C8 (amended): a promptless body is rejected with no store
write; a languageless body parses with the JavaScript default. -/
theorem generate_validation_amended_witness :
    handleGenerate ⟨true, true⟩ "rid" "sid" true (BackendOutcome.ok "text")
        ⟨none, some "python", none, none⟩ = (ApiResult.validationError, [])
    ∧ parseCodeRequestCreate ⟨some "hello", none, none, none⟩
        = some { prompt := "hello", language := "javascript"
               , request_type := "generate", code_input := none } :=
  ⟨((generate_validation_amended ⟨true, true⟩ "rid" "sid" true (BackendOutcome.ok "text")
      ⟨none, some "python", none, none⟩).1 rfl).1,
   (generate_validation_amended ⟨true, true⟩ "rid" "sid" true (BackendOutcome.ok "text")
      ⟨some "hello", none, none, none⟩).2 "hello" rfl rfl⟩

/-! ### Claim C10 — the explain operation -/

/-- Claim C10: `POST /explain-code` always returns the submitted code
unchanged in its `code` field, and whenever the backend call succeeds the
returned explanation is exactly the constant `"Code generated
successfully"`, whatever text the backend produced (the backend's
explanatory output lands in the discarded `code` field of the
normalization result). -/
theorem explain_returns_code_and_fixed_explanation (hasClient : Bool)
    (outcome : BackendOutcome) (code language : String) :
    (explainCode hasClient outcome code language).code = code
    ∧ (∀ text : String, hasClient = true → outcome = BackendOutcome.ok text →
        (explainCode hasClient outcome code language).explanation
          = "Code generated successfully") := by
  refine ⟨rfl, ?_⟩
  intro text hc ho
  subst hc
  subst ho
  rfl

/-- Witness for C10 at a concrete successful backend call. -/
theorem explain_returns_code_and_fixed_explanation_witness :
    (explainCode true (BackendOutcome.ok "this code prints 1") "print(1)" "python").code
      = "print(1)"
    ∧ (explainCode true (BackendOutcome.ok "this code prints 1") "print(1)" "python").explanation
      = "Code generated successfully" :=
  ⟨(explain_returns_code_and_fixed_explanation true (BackendOutcome.ok "this code prints 1")
      "print(1)" "python").1,
   (explain_returns_code_and_fixed_explanation true (BackendOutcome.ok "this code prints 1")
      "print(1)" "python").2 "this code prints 1" rfl rfl⟩

end CodeCraft
